import Mathlib

/-!
Verification of the cache-augmented fetch layer of the pokemcp repository.

The development shallowly embeds the Python sources:

* `src/pokemcp/api/cache.py` — `CacheLayer.get_or_fetch`: the hit/miss
  decision for the two backends (external key-value store selected when a
  store address is configured, otherwise a process-local dict), the
  write-back with server-side expiry (`SETEX`), and error propagation.
* `src/pokemcp/api/client.py` — `PokeAPIClient.get`: a GET wrapped in a
  retry combinator (3 total attempts, exponential backoff with minimum 1s
  and maximum 4s between attempts, any non-2xx status raised as an error).
* `src/pokemcp/tools/types.py` — the dual-type defensive multiplier
  computation (`get_dual_type_matchups`).
* `src/pokemcp/tools/items.py`, `tools/pokemon.py`, `tools/types.py` — the
  cache-key and request-path construction of the entity tools.

Python values stored in or returned from the cache are modelled by the
opaque type `PyVal`, which carries just enough structure to express Python
truthiness (`if cached:`).  Time is an explicit natural-number parameter
`now`; the external store keeps absolute expiry instants and implements
expiry-on-read, exactly as a `SETEX`/`GET` pair behaves.  A fetch closure
is modelled by its outcome, `Except String PyVal` (`.error` for a raised
exception); the number of times the closure is invoked during a call is
returned explicitly so that "fetch is called exactly once / not at all"
is a provable statement.
-/

namespace PokeMCP

/-- A Python value as seen by the cache layer: an opaque payload carrying
just enough structure to decide Python truthiness. -/
inductive PyVal where
  | vNone
  | vBool (b : Bool)
  | vInt (n : Int)
  | vStr (s : String)
  | vBytes (s : String)
deriving DecidableEq

/-- Python truthiness (`if cached:`): `None`, `False`, `0`, empty strings,
empty bytes and empty collections are falsy; everything else is truthy. -/
def PyVal.truthy : PyVal → Bool
  | .vNone => false
  | .vBool b => b
  | .vInt n => n != 0
  | .vStr s => !s.isEmpty
  | .vBytes s => !s.isEmpty

/-- State of `CacheLayer` (`cache.py`): `redisUrl` is the constructor
argument (`self.redis` is non-`None` exactly when a URL was given);
`redisStore` models the external store as an association list of
key, value and absolute expiry instant; `localStore` models the
process-local dict `self._local`. -/
structure CacheLayer where
  redisUrl : Option String
  redisStore : List (String × PyVal × Nat)
  localStore : List (String × PyVal)
deriving DecidableEq

/-- `CacheLayer.__init__`: both stores start empty. -/
def CacheLayer.init (redisUrl : Option String) : CacheLayer :=
  ⟨redisUrl, [], []⟩

/-- `redis.get(key)` with server-side expiry-on-read: an entry whose expiry
instant has passed is absent. -/
def redisGet (store : List (String × PyVal × Nat)) (now : Nat) (key : String) :
    Option PyVal :=
  match store.lookup key with
  | some (v, exp) => if now < exp then some v else none
  | none => none

/-- `redis.setex(key, ttl, v)`: write `v` under `key` with expiry `now + ttl`,
overwriting any previous binding for `key`. -/
def redisSetex (store : List (String × PyVal × Nat)) (now : Nat) (key : String)
    (ttl : Nat) (v : PyVal) : List (String × PyVal × Nat) :=
  (key, v, now + ttl) :: store.filter (fun e => !(e.1 == key))

/-- `key in self._local` / `self._local[key]` combined: the local dict read. -/
def localGet (store : List (String × PyVal)) (key : String) : Option PyVal :=
  store.lookup key

/-- `self._local[key] = v`: the local dict write, overwriting any previous
binding for `key`. -/
def localSet (store : List (String × PyVal)) (key : String) (v : PyVal) :
    List (String × PyVal) :=
  (key, v) :: store.filter (fun e => !(e.1 == key))

/-- The hit decision of `get_or_fetch` (cache.py lines 10-15): with the
external backend, `redis.get` followed by the truthiness test `if cached:`;
with the local backend, plain key presence `key in self._local`. -/
def CacheLayer.hitValue (c : CacheLayer) (now : Nat) (key : String) :
    Option PyVal :=
  if c.redisUrl.isSome then
    match redisGet c.redisStore now key with
    | some cached => if cached.truthy then some cached else none
    | none => none
  else
    localGet c.localStore key

/-- The write-back of `get_or_fetch` (cache.py lines 19-22): `SETEX` with
`ttl` on the external backend, a plain dict write (no expiry) locally. -/
def CacheLayer.writeBack (c : CacheLayer) (now : Nat) (key : String)
    (ttl : Nat) (v : PyVal) : CacheLayer :=
  if c.redisUrl.isSome then
    ⟨c.redisUrl, redisSetex c.redisStore now key ttl v, c.localStore⟩
  else
    ⟨c.redisUrl, c.redisStore, localSet c.localStore key v⟩

instance {ε α : Type} [DecidableEq ε] [DecidableEq α] : DecidableEq (Except ε α) :=
  fun x y =>
  match x, y with
  | .ok a, .ok b =>
    if h : a = b then .isTrue (by rw [h]) else .isFalse (by intro hc; cases hc; exact h rfl)
  | .ok _, .error _ => .isFalse (by intro hc; cases hc)
  | .error _, .ok _ => .isFalse (by intro hc; cases hc)
  | .error e, .error f =>
    if h : e = f then .isTrue (by rw [h]) else .isFalse (by intro hc; cases hc; exact h rfl)

/-- Outcome of one `get_or_fetch` call: the returned value or propagated
exception, the cache state after the call, and how many times the fetch
closure was invoked during the call. -/
structure GofResult where
  res : Except String PyVal
  state : CacheLayer
  fetchCalls : Nat
deriving DecidableEq

/-- `CacheLayer.get_or_fetch(key, fetcher, ttl)` (cache.py lines 9-24):
return a hit immediately without touching the fetch closure; otherwise
invoke the closure once, propagate its exception unchanged without writing,
or store its result (SETEX with `ttl` externally, no expiry locally) and
return it. -/
def CacheLayer.get_or_fetch (c : CacheLayer) (now : Nat) (key : String)
    (fetcher : Except String PyVal) (ttl : Nat) : GofResult :=
  match c.hitValue now key with
  | some v => ⟨.ok v, c, 0⟩
  | none =>
    match fetcher with
    | .error e => ⟨.error e, c, 1⟩
    | .ok result => ⟨.ok result, c.writeBack now key ttl result, 1⟩

/-- Outcome of one underlying HTTP call made by `PokeAPIClient.get`
(`client.py`): either a transport-level failure or a response carrying a
status code and an (already parsed) body. -/
inductive HttpOutcome where
  | transportError (msg : String)
  | response (status : Nat) (body : PyVal)
deriving DecidableEq

/-- One attempt of `client.py` lines 15-17: `response.raise_for_status()`
raises for every non-success (non-2xx) status, and a transport failure
raises its own error; otherwise the parsed body is returned. -/
def attemptResult : HttpOutcome → Except String PyVal
  | .transportError msg => .error msg
  | .response status body =>
    if 200 ≤ status ∧ status < 300 then .ok body
    else .error ("HTTP status " ++ toString status)

/-- `tenacity.wait_exponential(min=mn, max=mx)` with the default
multiplier 1 and base 2: the wait after the `n`-th completed attempt is
`2 ^ (n - 1)` seconds clamped into `[mn, mx]`. -/
def waitExponential (mn mx n : Nat) : Nat :=
  max mn (min (2 ^ (n - 1)) mx)

/-- Result of a retried call: the final outcome, the number of underlying
calls actually made, and the list of backoff waits slept between them. -/
structure RetryResult where
  res : Except String PyVal
  calls : Nat
  waits : List Nat
deriving DecidableEq

/-- The `tenacity.retry` loop with `stop_after_attempt`: run attempt `n`
(`f n` is the outcome of the `n`-th underlying call, 1-based); return on
success; on failure, stop with the last error once the attempt budget is
exhausted, else sleep `waitExponential 1 4 n` and try again. -/
def retryLoop (f : Nat → HttpOutcome) : Nat → Nat → RetryResult
  | 0, _ => ⟨.error "", 0, []⟩
  | 1, n =>
    match attemptResult (f n) with
    | .ok v => ⟨.ok v, 1, []⟩
    | .error e => ⟨.error e, 1, []⟩
  | remaining + 2, n =>
    match attemptResult (f n) with
    | .ok v => ⟨.ok v, 1, []⟩
    | .error _ =>
      let rest := retryLoop f (remaining + 1) (n + 1)
      ⟨rest.res, rest.calls + 1, waitExponential 1 4 n :: rest.waits⟩

/-- `PokeAPIClient.get` (`client.py` lines 13-17): the underlying GET under
`@retry(stop=stop_after_attempt(3), wait=wait_exponential(min=1, max=4))`. -/
def PokeAPIClient.get (f : Nat → HttpOutcome) : RetryResult :=
  retryLoop f 3 1

/-- The 18-type universe `ALL_TYPES` of `tools/types.py`. -/
def ALL_TYPES : List String :=
  ["normal", "fire", "water", "electric", "grass", "ice",
   "fighting", "poison", "ground", "flying", "psychic", "bug",
   "rock", "ghost", "dragon", "dark", "steel", "fairy"]

/-- The defensive half of a type's `damage_relations` object as returned by
the upstream API (only the `*_damage_from` lists feed the dual-type
computation). -/
structure DamageRelations where
  double_damage_from : List String
  half_damage_from : List String
  no_damage_from : List String
deriving DecidableEq

/-- `build_multiplier_map` of `get_dual_type_matchups` (`types.py` lines
96-105) as a function: every type starts at 1, then the three loops
overwrite with 2, 0.5 and 0 in that order, so a later list wins over an
earlier one when a name occurs in several. -/
def build_multiplier_map (r : DamageRelations) (t : String) : Rat :=
  if t ∈ r.no_damage_from then 0
  else if t ∈ r.half_damage_from then 1/2
  else if t ∈ r.double_damage_from then 2
  else 1

/-- `combined` of `get_dual_type_matchups` (`types.py` line 110): the
product of the two per-type multipliers. -/
def combinedMultiplier (r1 r2 : DamageRelations) (t : String) : Rat :=
  build_multiplier_map r1 t * build_multiplier_map r2 t

/-- `label_map.get(mult, "1x")` of `get_dual_type_matchups` (`types.py`
line 113): the bucket label of a combined multiplier, defaulting to a 1x
label for any value outside the table. -/
def multiplierLabel (m : Rat) : String :=
  if m = 4 then "4x"
  else if m = 2 then "2x"
  else if m = 1 then "1x"
  else if m = 1/2 then "0.5x"
  else if m = 1/4 then "0.25x"
  else if m = 0 then "0x"
  else "1x"

/-- The bucket of `grouped` (`types.py` lines 112-117) for one label: the
attacker types, in `ALL_TYPES` order, whose combined multiplier carries
that label. -/
def dualTypeBucket (r1 r2 : DamageRelations) (lbl : String) : List String :=
  ALL_TYPES.filter (fun t => multiplierLabel (combinedMultiplier r1 r2 t) == lbl)

/-- Python `str.lower()` restricted to the ASCII range: lower-case every
character of the string. -/
def pyLower (s : String) : String :=
  ⟨s.data.map Char.toLower⟩

/-- Cache key built by `get_pokemon` (`tools/pokemon.py` line 19). -/
def pokemonKey (s : String) : String := "pokemon:" ++ pyLower s

/-- Request path built by the fetch closure of `get_pokemon`
(`tools/pokemon.py` line 22). -/
def pokemonPath (s : String) : String := "/pokemon/" ++ pyLower s

/-- Cache key built by `get_type` (`tools/types.py` line 25). -/
def typeKey (s : String) : String := "type:" ++ pyLower s

/-- Request path built by the fetch closure of `get_type`
(`tools/types.py` line 28). -/
def typePath (s : String) : String := "/type/" ++ pyLower s

/-- Cache key built by `get_item` (`tools/items.py` line 18). -/
def itemKey (s : String) : String := "item:" ++ pyLower s

/-- Request path built by the fetch closure of `get_item`
(`tools/items.py` line 21). -/
def itemPath (s : String) : String := "/item/" ++ pyLower s

/-- The limit clamp of `list_items` (`tools/items.py` line 68):
`limit = min(limit, 100)`. -/
def itemsListLimit (limit : Int) : Int := min limit 100

/-- Cache key built by `list_items` (`tools/items.py` line 69), after the
clamp reassigned `limit`. -/
def itemsListKey (limit offset : Int) : String :=
  "items_list:" ++ toString (itemsListLimit limit) ++ ":" ++ toString offset

/-- Request path built by the fetch closure of `list_items`
(`tools/items.py` line 72), using the same clamped limit. -/
def itemsListPath (limit offset : Int) : String :=
  "/item?limit=" ++ toString (itemsListLimit limit) ++ "&offset=" ++ toString offset

/-- The cache interaction of an entity tool such as `get_pokemon`
(`tools/pokemon.py` lines 14-26): `get_or_fetch` on the lower-cased key,
with a fetch closure that hits the upstream at the lower-cased path.
`upstream` maps a request path to the outcome of the fetch closure. -/
def entityToolCall (c : CacheLayer) (now : Nat) (key path : String)
    (upstream : String → Except String PyVal) (ttl : Nat) : GofResult :=
  c.get_or_fetch now key (upstream path) ttl

/-- `get_pokemon` (`tools/pokemon.py`): key `pokemon:<lower>`, path
`/pokemon/<lower>`. -/
def get_pokemon (c : CacheLayer) (now : Nat) (s : String)
    (upstream : String → Except String PyVal) (ttl : Nat) : GofResult :=
  entityToolCall c now (pokemonKey s) (pokemonPath s) upstream ttl

/-- `get_type` (`tools/types.py`): key `type:<lower>`, path `/type/<lower>`. -/
def get_type (c : CacheLayer) (now : Nat) (s : String)
    (upstream : String → Except String PyVal) (ttl : Nat) : GofResult :=
  entityToolCall c now (typeKey s) (typePath s) upstream ttl

/-- `get_item` (`tools/items.py`): key `item:<lower>`, path `/item/<lower>`. -/
def get_item (c : CacheLayer) (now : Nat) (s : String)
    (upstream : String → Except String PyVal) (ttl : Nat) : GofResult :=
  entityToolCall c now (itemKey s) (itemPath s) upstream ttl

/-- `list_items` (`tools/items.py` lines 63-76): `get_or_fetch` on the
pagination key, fetching from the pagination path. -/
def list_items (c : CacheLayer) (now : Nat) (limit offset : Int)
    (upstream : String → Except String PyVal) (ttl : Nat) : GofResult :=
  entityToolCall c now (itemsListKey limit offset) (itemsListPath limit offset)
    upstream ttl

/-! ### Helper lemmas about the store operations -/

theorem lookup_filter_ne {β : Type} (l : List (String × β)) (k k2 : String)
    (h : k2 ≠ k) :
    (l.filter (fun e => !(e.1 == k))).lookup k2 = l.lookup k2 := by
  induction l with
  | nil => rfl
  | cons e es ih =>
    obtain ⟨a, b⟩ := e
    by_cases hek : a = k
    · have hb : (a == k) = true := beq_iff_eq.mpr hek
      have hk2 : (k2 == a) = false :=
        beq_eq_false_iff_ne.mpr (fun hc => h (hc.trans hek))
      simp [List.filter_cons, hb, List.lookup_cons, hk2, ih]
    · have hb : (a == k) = false := beq_eq_false_iff_ne.mpr hek
      by_cases hk2 : k2 = a
      · have hk2b : (k2 == a) = true := beq_iff_eq.mpr hk2
        simp [List.filter_cons, hb, List.lookup_cons, hk2b]
      · have hk2b : (k2 == a) = false := beq_eq_false_iff_ne.mpr hk2
        simp [List.filter_cons, hb, List.lookup_cons, hk2b, ih]

theorem redisGet_setex_self (store : List (String × PyVal × Nat))
    (now now2 ttl : ℕ) (key : String) (v : PyVal) :
    redisGet (redisSetex store now key ttl v) now2 key =
      if now2 < now + ttl then some v else none := by
  simp [redisGet, redisSetex, List.lookup_cons]

theorem redisGet_setex_ne (store : List (String × PyVal × Nat))
    (now t ttl : ℕ) {key k2 : String} (v : PyVal) (h : k2 ≠ key) :
    redisGet (redisSetex store now key ttl v) t k2 = redisGet store t k2 := by
  have hb : (k2 == key) = false := beq_eq_false_iff_ne.mpr h
  simp [redisGet, redisSetex, List.lookup_cons, hb, lookup_filter_ne _ _ _ h]

theorem redisGet_none_mono {store : List (String × PyVal × Nat)}
    {now now2 : ℕ} {key : String}
    (h : redisGet store now key = none) (hle : now ≤ now2) :
    redisGet store now2 key = none := by
  unfold redisGet at h ⊢
  cases hlk : store.lookup key with
  | none => simp
  | some p =>
    obtain ⟨v, exp⟩ := p
    rw [hlk] at h
    by_cases hexp : now < exp
    · simp [hexp] at h
    · have hexp2 : ¬ now2 < exp := fun hc => hexp (Nat.lt_of_le_of_lt hle hc)
      simp [hexp2]

theorem redisGet_some_cases {store : List (String × PyVal × Nat)}
    {now : ℕ} (now2 : ℕ) {key : String} {v : PyVal}
    (h : redisGet store now key = some v) :
    redisGet store now2 key = some v ∨ redisGet store now2 key = none := by
  unfold redisGet at h ⊢
  cases hlk : store.lookup key with
  | none => rw [hlk] at h; exact absurd h (by simp)
  | some p =>
    obtain ⟨w, exp⟩ := p
    rw [hlk] at h
    dsimp only at h
    by_cases hexp2 : now2 < exp
    · left
      by_cases hexp : now < exp
      · rw [if_pos hexp] at h
        simpa [hexp2] using h
      · rw [if_neg hexp] at h
        exact absurd h (by simp)
    · right; simp [hexp2]

theorem localGet_set_self (store : List (String × PyVal)) (key : String)
    (v : PyVal) : localGet (localSet store key v) key = some v := by
  simp [localGet, localSet, List.lookup_cons]

theorem localGet_set_ne (store : List (String × PyVal)) (key k2 : String)
    (v : PyVal) (h : k2 ≠ key) :
    localGet (localSet store key v) k2 = localGet store k2 := by
  have hb : (k2 == key) = false := beq_eq_false_iff_ne.mpr h
  simp [localGet, localSet, List.lookup_cons, hb, lookup_filter_ne _ _ _ h]

/-! ### Helper lemmas about the cache layer -/

theorem get_or_fetch_of_hit {c : CacheLayer} {now : ℕ} {key : String}
    {v : PyVal} (f : Except String PyVal) (ttl : ℕ)
    (h : c.hitValue now key = some v) :
    c.get_or_fetch now key f ttl = ⟨.ok v, c, 0⟩ := by
  simp [CacheLayer.get_or_fetch, h]

theorem get_or_fetch_of_miss_ok {c : CacheLayer} {now : ℕ} {key : String}
    (v : PyVal) (ttl : ℕ) (h : c.hitValue now key = none) :
    c.get_or_fetch now key (.ok v) ttl = ⟨.ok v, c.writeBack now key ttl v, 1⟩ := by
  simp [CacheLayer.get_or_fetch, h]

theorem get_or_fetch_of_miss_error {c : CacheLayer} {now : ℕ} {key : String}
    (e : String) (ttl : ℕ) (h : c.hitValue now key = none) :
    c.get_or_fetch now key (.error e) ttl = ⟨.error e, c, 1⟩ := by
  simp [CacheLayer.get_or_fetch, h]

theorem hitValue_writeBack_local {c : CacheLayer} (hl : c.redisUrl = none)
    (now t ttl : ℕ) (key : String) (v : PyVal) :
    (c.writeBack now key ttl v).hitValue t key = some v := by
  simp [CacheLayer.writeBack, CacheLayer.hitValue, hl, localGet_set_self]

theorem hitValue_writeBack_redis {c : CacheLayer} (hr : c.redisUrl.isSome)
    {now t ttl : ℕ} (key : String) {v : PyVal} (hv : v.truthy = true)
    (ht : t < now + ttl) :
    (c.writeBack now key ttl v).hitValue t key = some v := by
  obtain ⟨u, hu⟩ := Option.isSome_iff_exists.mp hr
  simp [CacheLayer.writeBack, CacheLayer.hitValue, hu, redisGet_setex_self,
    ht, hv]

theorem hitValue_none_mono {c : CacheLayer} {now now2 : ℕ} {key : String}
    (h : c.hitValue now key = none) (hle : now ≤ now2) :
    c.hitValue now2 key = none := by
  cases hu : c.redisUrl with
  | none =>
    unfold CacheLayer.hitValue at h ⊢
    rw [hu] at h ⊢
    simpa using h
  | some u =>
    unfold CacheLayer.hitValue at h ⊢
    rw [hu] at h ⊢
    simp only [Option.isSome_some, if_true] at h ⊢
    cases hg : redisGet c.redisStore now key with
    | none => simp [redisGet_none_mono hg hle]
    | some cached =>
      rw [hg] at h
      rcases redisGet_some_cases now2 hg with h2 | h2
      · rw [h2]; exact h
      · rw [h2]

theorem writeBack_redisStore_lookup_ne {c : CacheLayer} (now ttl : ℕ)
    {key k2 : String} (v : PyVal) (h : k2 ≠ key) :
    (c.writeBack now key ttl v).redisStore.lookup k2 = c.redisStore.lookup k2 := by
  cases hu : c.redisUrl with
  | none => simp [CacheLayer.writeBack, hu]
  | some u =>
    have hb : (k2 == key) = false := beq_eq_false_iff_ne.mpr h
    simp [CacheLayer.writeBack, hu, redisSetex, List.lookup_cons, hb,
      lookup_filter_ne _ _ _ h]

theorem writeBack_localStore_lookup_ne {c : CacheLayer} (now ttl : ℕ)
    {key k2 : String} (v : PyVal) (h : k2 ≠ key) :
    (c.writeBack now key ttl v).localStore.lookup k2 = c.localStore.lookup k2 := by
  cases hu : c.redisUrl with
  | some u => simp [CacheLayer.writeBack, hu]
  | none =>
    have hb : (k2 == key) = false := beq_eq_false_iff_ne.mpr h
    simp [CacheLayer.writeBack, hu, localSet, List.lookup_cons, hb,
      lookup_filter_ne _ _ _ h]

theorem writeBack_redisUrl (c : CacheLayer) (now ttl : ℕ) (key : String)
    (v : PyVal) : (c.writeBack now key ttl v).redisUrl = c.redisUrl := by
  cases hu : c.redisUrl <;> simp [CacheLayer.writeBack, hu]

theorem hitValue_writeBack_ne {c : CacheLayer} (now t ttl : ℕ)
    {key k2 : String} (v : PyVal) (h : k2 ≠ key) :
    (c.writeBack now key ttl v).hitValue t k2 = c.hitValue t k2 := by
  cases hu : c.redisUrl with
  | none =>
    simp [CacheLayer.writeBack, CacheLayer.hitValue, hu,
      localGet, localSet, List.lookup_cons, beq_eq_false_iff_ne.mpr h,
      lookup_filter_ne _ _ _ h]
  | some u =>
    simp [CacheLayer.writeBack, CacheLayer.hitValue, hu,
      redisGet_setex_ne _ _ _ _ _ h]

theorem get_or_fetch_state_redisUrl (c : CacheLayer) (now : ℕ) (key : String)
    (f : Except String PyVal) (ttl : ℕ) :
    (c.get_or_fetch now key f ttl).state.redisUrl = c.redisUrl := by
  unfold CacheLayer.get_or_fetch
  cases c.hitValue now key with
  | some v => rfl
  | none =>
    cases f with
    | error e => rfl
    | ok v => exact writeBack_redisUrl c now ttl key v

theorem get_or_fetch_state_hitValue_ne {c : CacheLayer} (now t ttl : ℕ)
    {key k2 : String} (f : Except String PyVal) (h : k2 ≠ key) :
    (c.get_or_fetch now key f ttl).state.hitValue t k2 = c.hitValue t k2 := by
  unfold CacheLayer.get_or_fetch
  cases hh : c.hitValue now key with
  | some v => rfl
  | none =>
    cases f with
    | error e => rfl
    | ok v => exact hitValue_writeBack_ne now t ttl v h

theorem get_or_fetch_congr_hit {c1 c2 : CacheLayer} {now1 now2 : ℕ}
    {key1 key2 : String} (f : Except String PyVal) (ttl1 ttl2 : ℕ)
    (h : c1.hitValue now1 key1 = c2.hitValue now2 key2) :
    (c1.get_or_fetch now1 key1 f ttl1).res = (c2.get_or_fetch now2 key2 f ttl2).res ∧
    (c1.get_or_fetch now1 key1 f ttl1).fetchCalls =
      (c2.get_or_fetch now2 key2 f ttl2).fetchCalls := by
  unfold CacheLayer.get_or_fetch
  rw [h]
  cases hx : c2.hitValue now2 key2 <;> cases f <;> exact ⟨rfl, rfl⟩

/-! ### Helper lemmas about the retry loop -/

theorem retryLoop_calls_le (f : Nat → HttpOutcome) :
    ∀ remaining n, (retryLoop f remaining n).calls ≤ remaining
  | 0, _ => by simp [retryLoop]
  | 1, n => by
    cases h : attemptResult (f n) <;> simp [retryLoop, h]
  | remaining + 2, n => by
    cases h : attemptResult (f n) with
    | ok v => simp [retryLoop, h]
    | error e =>
      have hrec := retryLoop_calls_le f (remaining + 1) (n + 1)
      simp only [retryLoop, h]
      omega

/-! ### Decimal representations are injective

`list_items` interpolates the clamped limit and the offset into its cache
key, so distinctness of the keys reduces to injectivity of the decimal
string representation of integers.  The following lemmas prove that
injectivity by decoding the digit string produced by `Nat.toDigitsCore`. -/

/-- Numeric value of a decimal digit character. -/
def digitVal (c : Char) : Nat := c.toNat - 48

/-- Decode a decimal digit string, most significant digit first. -/
def decodeDigits (l : List Char) : Nat :=
  l.foldl (fun a c => 10 * a + digitVal c) 0

theorem digitVal_digitChar : ∀ d : Nat, d < 10 → digitVal (Nat.digitChar d) = d := by
  decide

theorem digitChar_ne_dash : ∀ d : Nat, d < 10 → Nat.digitChar d ≠ '-' := by
  decide

theorem toDigitsCore_shift (fuel : Nat) :
    ∀ n ds, Nat.toDigitsCore 10 fuel n ds = Nat.toDigitsCore 10 fuel n [] ++ ds := by
  induction fuel with
  | zero => intro n ds; simp [Nat.toDigitsCore]
  | succ fuel ih =>
    intro n ds
    unfold Nat.toDigitsCore
    by_cases h : n / 10 = 0
    · simp [h]
    · simp only [h, if_false]
      rw [ih (n / 10) (Nat.digitChar (n % 10) :: ds),
        ih (n / 10) [Nat.digitChar (n % 10)]]
      simp

theorem decodeDigits_toDigitsCore :
    ∀ fuel n, n < 10 ^ fuel → decodeDigits (Nat.toDigitsCore 10 fuel n []) = n := by
  intro fuel
  induction fuel with
  | zero =>
    intro n h
    have hn : n = 0 := Nat.lt_one_iff.mp (by simpa using h)
    subst hn
    rfl
  | succ fuel ih =>
    intro n h
    unfold Nat.toDigitsCore
    by_cases h0 : n / 10 = 0
    · simp [h0, decodeDigits]
      rw [digitVal_digitChar (n % 10) (Nat.mod_lt _ (by norm_num))]
      omega
    · simp only [h0, if_false]
      rw [toDigitsCore_shift]
      have hlt : n / 10 < 10 ^ fuel := by
        rw [Nat.div_lt_iff_lt_mul (by norm_num)]
        calc n < 10 ^ (fuel + 1) := h
          _ = 10 ^ fuel * 10 := by ring
      have hdec := ih (n / 10) hlt
      unfold decodeDigits at hdec ⊢
      rw [List.foldl_append, hdec]
      simp [digitVal_digitChar (n % 10) (Nat.mod_lt _ (by norm_num))]
      omega

theorem decodeDigits_toDigits (n : Nat) :
    decodeDigits (Nat.toDigits 10 n) = n := by
  have hlt : n < 10 ^ (n + 1) :=
    lt_of_lt_of_le (Nat.lt_pow_self (by norm_num) n)
      (Nat.pow_le_pow_right (by norm_num) (Nat.le_succ n))
  exact decodeDigits_toDigitsCore (n + 1) n hlt

theorem Nat_repr_injective {m n : Nat} (h : Nat.repr m = Nat.repr n) : m = n := by
  have hd : Nat.toDigits 10 m = Nat.toDigits 10 n := by
    have hcongr := congrArg String.data h
    simpa [Nat.repr, List.asString] using hcongr
  calc m = decodeDigits (Nat.toDigits 10 m) := (decodeDigits_toDigits m).symm
    _ = decodeDigits (Nat.toDigits 10 n) := by rw [hd]
    _ = n := decodeDigits_toDigits n

theorem toDigitsCore_head :
    ∀ fuel n ds, ∃ d tail, d < 10 ∧
      Nat.toDigitsCore 10 (fuel + 1) n ds = Nat.digitChar d :: tail := by
  intro fuel
  induction fuel with
  | zero =>
    intro n ds
    refine ⟨n % 10, ?_⟩
    unfold Nat.toDigitsCore
    by_cases h : n / 10 = 0 <;>
      simp [h, Nat.toDigitsCore, Nat.mod_lt n (show 0 < 10 by norm_num)]
  | succ fuel ih =>
    intro n ds
    by_cases h : n / 10 = 0
    · refine ⟨n % 10, ds, Nat.mod_lt n (by norm_num), ?_⟩
      unfold Nat.toDigitsCore
      simp [h]
    · obtain ⟨d, tail, hd, htail⟩ := ih (n / 10) (Nat.digitChar (n % 10) :: ds)
      refine ⟨d, tail, hd, ?_⟩
      unfold Nat.toDigitsCore
      simp only [h, if_false]
      exact htail

theorem Nat_repr_head (n : Nat) :
    ∃ d tail, d < 10 ∧ (Nat.repr n).data = Nat.digitChar d :: tail := by
  obtain ⟨d, tail, hd, htail⟩ := toDigitsCore_head n n []
  exact ⟨d, tail, hd, by simpa [Nat.repr, Nat.toDigits, List.asString] using htail⟩

theorem Int_toString_injective {i j : Int} (h : toString i = toString j) :
    i = j := by
  cases i with
  | ofNat m =>
    cases j with
    | ofNat n =>
      have hm : toString (Int.ofNat m) = Nat.repr m := rfl
      have hn : toString (Int.ofNat n) = Nat.repr n := rfl
      rw [hm, hn] at h
      exact congrArg Int.ofNat (Nat_repr_injective h)
    | negSucc n =>
      exfalso
      have hm : toString (Int.ofNat m) = Nat.repr m := rfl
      have hn : toString (Int.negSucc n) = "-" ++ Nat.repr (n + 1) := rfl
      rw [hm, hn] at h
      obtain ⟨d, tail, hd, htail⟩ := Nat_repr_head m
      have hdata := congrArg String.data h
      rw [htail, String.data_append] at hdata
      have : Nat.digitChar d = '-' := by
        have hdash : ("-" : String).data = ['-'] := rfl
        rw [hdash] at hdata
        exact (List.cons.injEq _ _ _ _ ▸ hdata).1
      exact digitChar_ne_dash d hd this
  | negSucc m =>
    cases j with
    | ofNat n =>
      exfalso
      have hm : toString (Int.negSucc m) = "-" ++ Nat.repr (m + 1) := rfl
      have hn : toString (Int.ofNat n) = Nat.repr n := rfl
      rw [hm, hn] at h
      obtain ⟨d, tail, hd, htail⟩ := Nat_repr_head n
      have hdata := congrArg String.data h.symm
      rw [htail, String.data_append] at hdata
      have : Nat.digitChar d = '-' := by
        have hdash : ("-" : String).data = ['-'] := rfl
        rw [hdash] at hdata
        exact (List.cons.injEq _ _ _ _ ▸ hdata).1
      exact digitChar_ne_dash d hd this
    | negSucc n =>
      have hm : toString (Int.negSucc m) = "-" ++ Nat.repr (m + 1) := rfl
      have hn : toString (Int.negSucc n) = "-" ++ Nat.repr (n + 1) := rfl
      rw [hm, hn] at h
      have hdata := congrArg String.data h
      simp only [String.data_append] at hdata
      have hrepr : Nat.repr (m + 1) = Nat.repr (n + 1) := by
        apply String.ext
        exact List.append_cancel_left hdata
      have := Nat_repr_injective hrepr
      exact congrArg Int.negSucc (by omega)

/-! ### Helper lemmas about identifier lower-casing -/

theorem map_toLower_eq_of_caseEq {l1 l2 : List Char}
    (h : List.Forall₂ (fun a b : Char => a.toLower = b.toLower) l1 l2) :
    l1.map Char.toLower = l2.map Char.toLower := by
  induction h with
  | nil => rfl
  | cons hab _ ih => simp [List.map_cons, hab, ih]

theorem pyLower_eq_of_caseEq {s1 s2 : String}
    (h : List.Forall₂ (fun a b : Char => a.toLower = b.toLower) s1.data s2.data) :
    pyLower s1 = pyLower s2 := by
  apply String.ext
  show s1.data.map Char.toLower = s2.data.map Char.toLower
  exact map_toLower_eq_of_caseEq h

/-! ### The claims -/

/-- Cache state for the C1 counterexample: the external backend is
configured and key "k" is present in the store with the stored, falsy,
value `b""`, unexpired at time 0. -/
def c1CacheCE : CacheLayer :=
  ⟨some "redis://localhost:6379", [("k", PyVal.vBytes "", 100)], []⟩

/-- C1 counterexample: with the external backend, a key that is present in
the backing store (the store read returns the stored value `b""`) does
not make `get_or_fetch` return the stored value without invoking fetch —
the stored value is falsy, so the fetch function is invoked (once) and its
result, not the stored value, is returned.  This refutes the claim as
stated, which quantifies over every stored value. -/
theorem C1_counterexample :
    redisGet c1CacheCE.redisStore 0 "k" = some (PyVal.vBytes "") ∧
    (c1CacheCE.get_or_fetch 0 "k" (Except.ok (PyVal.vStr "fresh")) 60).fetchCalls = 1 ∧
    (c1CacheCE.get_or_fetch 0 "k" (Except.ok (PyVal.vStr "fresh")) 60).res =
      Except.ok (PyVal.vStr "fresh") := by
  decide

/-- C1 (amended): for every key present in the configured backing store
with a truthy stored value (any present key, on the local backend) and any
fetch function, `get_or_fetch` returns the stored value and does not
invoke fetch; in particular, after a key is written by a miss with a
truthy value V, an unexpired repeated call with a different fetch function
still returns V without invoking it. -/
theorem C1_idempotent_hit (c : CacheLayer) (now now2 ttl ttl2 : ℕ)
    (key : String) (v : PyVal) (f f2 : Except String PyVal) :
    (((c.redisUrl.isSome ∧ redisGet c.redisStore now key = some v ∧
          v.truthy = true) ∨
        (c.redisUrl = none ∧ localGet c.localStore key = some v)) →
      c.get_or_fetch now key f ttl = ⟨Except.ok v, c, 0⟩) ∧
    (c.hitValue now key = none → v.truthy = true → now2 < now + ttl →
      (c.get_or_fetch now key (Except.ok v) ttl).state.get_or_fetch now2 key f2 ttl2 =
        ⟨Except.ok v, (c.get_or_fetch now key (Except.ok v) ttl).state, 0⟩) := by
  constructor
  · intro h
    apply get_or_fetch_of_hit
    rcases h with ⟨hr, hg, hv⟩ | ⟨hl, hg⟩
    · obtain ⟨u, hu⟩ := Option.isSome_iff_exists.mp hr
      simp [CacheLayer.hitValue, hu, hg, hv]
    · simpa [CacheLayer.hitValue, hl] using hg
  · intro hmiss hv hexp
    rw [get_or_fetch_of_miss_ok v ttl hmiss]
    apply get_or_fetch_of_hit
    cases hu : c.redisUrl with
    | none => exact hitValue_writeBack_local hu now now2 ttl key v
    | some u => exact hitValue_writeBack_redis (by simp [hu]) key hv hexp

/-- Witness for C1: a concrete local-backend hit returns the stored value
with no fetch invocation, and a concrete external-backend write of a
truthy value is an unexpired hit on the repeated call. -/
theorem C1_idempotent_hit_witness :
    ((CacheLayer.mk none [] [("pokemon:pikachu", PyVal.vStr "V")]).get_or_fetch 5
        "pokemon:pikachu" (Except.ok (PyVal.vStr "other")) 60 =
      ⟨Except.ok (PyVal.vStr "V"),
        CacheLayer.mk none [] [("pokemon:pikachu", PyVal.vStr "V")], 0⟩) ∧
    (((CacheLayer.init (some "redis://h")).get_or_fetch 0 "k"
        (Except.ok (PyVal.vStr "V")) 60).state.get_or_fetch 59 "k"
        (Except.ok (PyVal.vStr "other")) 75 =
      ⟨Except.ok (PyVal.vStr "V"),
        ((CacheLayer.init (some "redis://h")).get_or_fetch 0 "k"
          (Except.ok (PyVal.vStr "V")) 60).state, 0⟩) :=
  ⟨(C1_idempotent_hit (CacheLayer.mk none [] [("pokemon:pikachu", PyVal.vStr "V")])
      5 0 60 0 "pokemon:pikachu" (PyVal.vStr "V") (Except.ok (PyVal.vStr "other"))
      (Except.ok (PyVal.vStr "other"))).1 (Or.inr ⟨rfl, rfl⟩),
   (C1_idempotent_hit (CacheLayer.init (some "redis://h")) 0 59 60 75 "k"
      (PyVal.vStr "V") (Except.ok (PyVal.vStr "V"))
      (Except.ok (PyVal.vStr "other"))).2 (by decide) (by decide) (by decide)⟩

/-- C2: for every key absent from the configured backing store,
`get_or_fetch` invokes fetch exactly once, stores the result under the key
(with expiry instant `now + ttl` on the external backend; with no expiry
— a hit at every later instant — and an untouched external store on the
local backend), and returns the fetched result. -/
theorem C2_miss_populates (c : CacheLayer) (now ttl : ℕ) (key : String)
    (v : PyVal)
    (habsR : c.redisUrl.isSome → redisGet c.redisStore now key = none)
    (habsL : c.redisUrl = none → localGet c.localStore key = none) :
    ∃ c2, c.get_or_fetch now key (Except.ok v) ttl = ⟨Except.ok v, c2, 1⟩ ∧
      (c.redisUrl.isSome → c2.redisStore.lookup key = some (v, now + ttl)) ∧
      (c.redisUrl = none → (∀ t : ℕ, c2.hitValue t key = some v) ∧
        c2.redisStore = c.redisStore) := by
  have hmiss : c.hitValue now key = none := by
    cases hu : c.redisUrl with
    | none => simpa [CacheLayer.hitValue, hu, localGet] using habsL hu
    | some u =>
      have hg := habsR (by simp [hu])
      simp [CacheLayer.hitValue, hu, hg]
  refine ⟨c.writeBack now key ttl v, get_or_fetch_of_miss_ok v ttl hmiss, ?_, ?_⟩
  · intro hr
    obtain ⟨u, hu⟩ := Option.isSome_iff_exists.mp hr
    simp [CacheLayer.writeBack, hu, redisSetex, List.lookup_cons]
  · intro hl
    refine ⟨fun t => hitValue_writeBack_local hl now t ttl key v, ?_⟩
    simp [CacheLayer.writeBack, hl]

/-- Witness for C2 at a concrete miss on the (default) local backend. -/
theorem C2_miss_populates_witness :
    ∃ c2, (CacheLayer.init none).get_or_fetch 0 "item:potion"
        (Except.ok (PyVal.vStr "data")) 3600 =
      ⟨Except.ok (PyVal.vStr "data"), c2, 1⟩ ∧
      ((CacheLayer.init none).redisUrl.isSome →
        c2.redisStore.lookup "item:potion" = some (PyVal.vStr "data", 0 + 3600)) ∧
      ((CacheLayer.init none).redisUrl = none →
        (∀ t : ℕ, c2.hitValue t "item:potion" = some (PyVal.vStr "data")) ∧
        c2.redisStore = (CacheLayer.init none).redisStore) :=
  C2_miss_populates (CacheLayer.init none) 0 3600 "item:potion"
    (PyVal.vStr "data") (by decide) (by decide)

/-- C3: a fetch failure propagates unmodified and leaves the cache state
(both backing stores) unchanged, so a later call on the same key is still
a miss and invokes its own fetch function again. -/
theorem C3_error_propagates (c : CacheLayer) (now now2 ttl ttl2 : ℕ)
    (key e : String) (f2 : Except String PyVal)
    (hmiss : c.hitValue now key = none) (hle : now ≤ now2) :
    c.get_or_fetch now key (Except.error e) ttl = ⟨Except.error e, c, 1⟩ ∧
    (c.get_or_fetch now2 key f2 ttl2).fetchCalls = 1 := by
  refine ⟨get_or_fetch_of_miss_error e ttl hmiss, ?_⟩
  have hmiss2 := hitValue_none_mono hmiss hle
  unfold CacheLayer.get_or_fetch
  rw [hmiss2]
  cases f2 <;> rfl

/-- Witness for C3 at a concrete failing fetch on an empty local cache. -/
theorem C3_error_propagates_witness :
    (CacheLayer.init none).get_or_fetch 0 "k" (Except.error "boom") 60 =
      ⟨Except.error "boom", CacheLayer.init none, 1⟩ ∧
    ((CacheLayer.init none).get_or_fetch 7 "k"
      (Except.ok (PyVal.vStr "retry")) 60).fetchCalls = 1 :=
  C3_error_propagates (CacheLayer.init none) 0 7 60 60 "k" "boom"
    (Except.ok (PyVal.vStr "retry")) (by decide) (by decide)

/-- C5: with no external store configured, an entry once written by a miss
remains a hit for every later call with the same key, for any elapsed time
and any ttl argument of either call — the local backend never expires
entries and ignores ttl entirely. -/
theorem C5_local_never_expires (c : CacheLayer) (now ttl : ℕ) (key : String)
    (v : PyVal) (hlocal : c.redisUrl = none)
    (hmiss : localGet c.localStore key = none) :
    ∀ (now2 ttl2 : ℕ) (f2 : Except String PyVal),
      (c.get_or_fetch now key (Except.ok v) ttl).state.get_or_fetch now2 key f2 ttl2 =
        ⟨Except.ok v, (c.get_or_fetch now key (Except.ok v) ttl).state, 0⟩ := by
  intro now2 ttl2 f2
  have hmiss2 : c.hitValue now key = none := by
    simp [CacheLayer.hitValue, hlocal, hmiss]
  rw [get_or_fetch_of_miss_ok v ttl hmiss2]
  exact get_or_fetch_of_hit f2 ttl2 (hitValue_writeBack_local hlocal now now2 ttl key v)

/-- Witness for C5: an entry written locally at time 0 with ttl 1 is still
a hit a million seconds later under a different ttl. -/
theorem C5_local_never_expires_witness :
    ((CacheLayer.init none).get_or_fetch 0 "type:fire"
      (Except.ok (PyVal.vStr "V")) 1).state.get_or_fetch 1000000 "type:fire"
      (Except.ok (PyVal.vStr "other")) 1 =
    ⟨Except.ok (PyVal.vStr "V"),
      ((CacheLayer.init none).get_or_fetch 0 "type:fire"
        (Except.ok (PyVal.vStr "V")) 1).state, 0⟩ :=
  C5_local_never_expires (CacheLayer.init none) 0 1 "type:fire"
    (PyVal.vStr "V") (by decide) (by decide) 1000000 1
    (Except.ok (PyVal.vStr "other"))

/-- C6: the hit decision differs between backends on falsy values — the
external backend treats a stored falsy value as a miss and invokes fetch
again, while the local backend decides by key presence alone and returns
any stored value (falsy included) without invoking fetch. -/
theorem C6_falsy_asymmetry (c1 c2 : CacheLayer) (now ttl : ℕ) (key : String)
    (v w : PyVal) (f : Except String PyVal) :
    (c1.redisUrl.isSome → redisGet c1.redisStore now key = some v →
      v.truthy = false → (c1.get_or_fetch now key f ttl).fetchCalls = 1) ∧
    (c2.redisUrl = none → localGet c2.localStore key = some w →
      c2.get_or_fetch now key f ttl = ⟨Except.ok w, c2, 0⟩) := by
  constructor
  · intro hr hg hv
    have hmiss : c1.hitValue now key = none := by
      obtain ⟨u, hu⟩ := Option.isSome_iff_exists.mp hr
      simp [CacheLayer.hitValue, hu, hg, hv]
    unfold CacheLayer.get_or_fetch
    rw [hmiss]
    cases f <;> rfl
  · intro hl hg
    exact get_or_fetch_of_hit f ttl (by simpa [CacheLayer.hitValue, hl] using hg)

/-- Witness for C6: stored empty bytes under the external backend cause a
re-fetch; a stored `None` under the local backend is returned as a hit. -/
theorem C6_falsy_asymmetry_witness :
    ((CacheLayer.mk (some "redis://h") [("k", PyVal.vBytes "", 100)] []).get_or_fetch
      0 "k" (Except.ok (PyVal.vStr "x")) 60).fetchCalls = 1 ∧
    (CacheLayer.mk none [] [("k", PyVal.vNone)]).get_or_fetch 0 "k"
      (Except.ok (PyVal.vStr "x")) 60 =
      ⟨Except.ok PyVal.vNone, CacheLayer.mk none [] [("k", PyVal.vNone)], 0⟩ :=
  ⟨(C6_falsy_asymmetry (CacheLayer.mk (some "redis://h") [("k", PyVal.vBytes "", 100)] [])
      (CacheLayer.mk none [] [("k", PyVal.vNone)]) 0 60 "k" (PyVal.vBytes "")
      PyVal.vNone (Except.ok (PyVal.vStr "x"))).1 (by decide) (by decide) (by decide),
   (C6_falsy_asymmetry (CacheLayer.mk (some "redis://h") [("k", PyVal.vBytes "", 100)] [])
      (CacheLayer.mk none [] [("k", PyVal.vNone)]) 0 60 "k" (PyVal.vBytes "")
      PyVal.vNone (Except.ok (PyVal.vStr "x"))).2 (by decide) (by decide)⟩

/-- C7: `get_or_fetch` only ever writes the given key — for every other
key both backing stores are unchanged by the call, and a call on a
distinct key made from the resulting state returns the same value, with
the same number of fetch invocations, as it would have from the original
state: calls on distinct keys never observe each other's cached values. -/
theorem C7_key_isolation (c : CacheLayer) (now t ttl ttl2 : ℕ)
    (key k2 : String) (f f2 : Except String PyVal) (hne : k2 ≠ key) :
    ((c.get_or_fetch now key f ttl).state.redisStore.lookup k2 =
      c.redisStore.lookup k2) ∧
    ((c.get_or_fetch now key f ttl).state.localStore.lookup k2 =
      c.localStore.lookup k2) ∧
    (((c.get_or_fetch now key f ttl).state.get_or_fetch t k2 f2 ttl2).res =
      (c.get_or_fetch t k2 f2 ttl2).res) ∧
    (((c.get_or_fetch now key f ttl).state.get_or_fetch t k2 f2 ttl2).fetchCalls =
      (c.get_or_fetch t k2 f2 ttl2).fetchCalls) := by
  have hcongr := get_or_fetch_congr_hit f2 ttl2 ttl2
    (get_or_fetch_state_hitValue_ne (c := c) now t ttl f hne)
  refine ⟨?_, ?_, hcongr.1, hcongr.2⟩
  all_goals
    unfold CacheLayer.get_or_fetch
    cases hh : c.hitValue now key with
    | some v => rfl
    | none =>
      cases f with
      | error e => rfl
      | ok v =>
        first
        | exact writeBack_redisStore_lookup_ne now ttl v hne
        | exact writeBack_localStore_lookup_ne now ttl v hne

/-- Witness for C7 with two concrete distinct keys on a local cache. -/
theorem C7_key_isolation_witness :
    (((CacheLayer.init none).get_or_fetch 0 "a" (Except.ok (PyVal.vStr "va")) 60).state.redisStore.lookup "b" =
      (CacheLayer.init none).redisStore.lookup "b") ∧
    (((CacheLayer.init none).get_or_fetch 0 "a" (Except.ok (PyVal.vStr "va")) 60).state.localStore.lookup "b" =
      (CacheLayer.init none).localStore.lookup "b") ∧
    ((((CacheLayer.init none).get_or_fetch 0 "a" (Except.ok (PyVal.vStr "va")) 60).state.get_or_fetch 3 "b"
        (Except.ok (PyVal.vStr "vb")) 60).res =
      ((CacheLayer.init none).get_or_fetch 3 "b" (Except.ok (PyVal.vStr "vb")) 60).res) ∧
    ((((CacheLayer.init none).get_or_fetch 0 "a" (Except.ok (PyVal.vStr "va")) 60).state.get_or_fetch 3 "b"
        (Except.ok (PyVal.vStr "vb")) 60).fetchCalls =
      ((CacheLayer.init none).get_or_fetch 3 "b" (Except.ok (PyVal.vStr "vb")) 60).fetchCalls) :=
  C7_key_isolation (CacheLayer.init none) 0 3 60 60 "a" "b"
    (Except.ok (PyVal.vStr "va")) (Except.ok (PyVal.vStr "vb")) (by decide)

/-- C4: `PokeAPIClient.get` makes at most 3 underlying calls; if the first
two attempts fail (transport failure or non-2xx status) and the third
returns a success status, the parsed body of the success is returned after
exactly 3 calls with backoff waits of 1 then 2 seconds; if all 3 attempts
fail, the terminal error carries the last failure; the backoff starts at
1 second and is capped at 4 seconds. -/
theorem C4_retry_behavior (f : Nat → HttpOutcome) (e1 e2 e3 : String)
    (status : ℕ) (b : PyVal) :
    ((PokeAPIClient.get f).calls ≤ 3) ∧
    (attemptResult (f 1) = Except.error e1 → attemptResult (f 2) = Except.error e2 →
      f 3 = HttpOutcome.response status b → 200 ≤ status → status < 300 →
      PokeAPIClient.get f = ⟨Except.ok b, 3, [1, 2]⟩) ∧
    (attemptResult (f 1) = Except.error e1 → attemptResult (f 2) = Except.error e2 →
      attemptResult (f 3) = Except.error e3 →
      PokeAPIClient.get f = ⟨Except.error e3, 3, [1, 2]⟩) ∧
    waitExponential 1 4 1 = 1 ∧ (∀ n : ℕ, waitExponential 1 4 n ≤ 4) := by
  refine ⟨retryLoop_calls_le f 3 1, ?_, ?_, by decide, ?_⟩
  · intro h1 h2 h3 hs1 hs2
    have hok : attemptResult (f 3) = Except.ok b := by
      rw [h3]
      simp [attemptResult, hs1, hs2]
    simp [PokeAPIClient.get, retryLoop, h1, h2, hok, waitExponential]
  · intro h1 h2 h3
    simp [PokeAPIClient.get, retryLoop, h1, h2, h3, waitExponential]
  · intro n
    exact max_le (by norm_num) (min_le_right _ _)

/-- Witness for C4: a call failing twice on transport then succeeding
returns the success body after 3 calls with waits [1, 2]; a call answered
with status 500 throughout raises the terminal error after 3 calls. -/
theorem C4_retry_behavior_witness :
    PokeAPIClient.get (fun n => if n < 3 then HttpOutcome.transportError "conn reset"
        else HttpOutcome.response 200 (PyVal.vStr "body")) =
      ⟨Except.ok (PyVal.vStr "body"), 3, [1, 2]⟩ ∧
    PokeAPIClient.get (fun _ => HttpOutcome.response 500 PyVal.vNone) =
      ⟨Except.error ("HTTP status " ++ toString 500), 3, [1, 2]⟩ :=
  ⟨(C4_retry_behavior (fun n => if n < 3 then HttpOutcome.transportError "conn reset"
        else HttpOutcome.response 200 (PyVal.vStr "body")) "conn reset" "conn reset"
      "" 200 (PyVal.vStr "body")).2.1 (by decide) (by decide) (by decide)
      (by decide) (by decide),
   (C4_retry_behavior (fun _ => HttpOutcome.response 500 PyVal.vNone)
      ("HTTP status " ++ toString 500) ("HTTP status " ++ toString 500)
      ("HTTP status " ++ toString 500) 0 PyVal.vNone).2.2.1 rfl rfl rfl⟩

/-- Damage relations for the C8 counterexample: type A takes double damage
from B and does not mention C; type B lists C under `half_damage_from` but
also under `no_damage_from`. -/
def c8RelA : DamageRelations := ⟨["water"], [], []⟩

/-- Second relation of the C8 counterexample (type B, with C = "fire"). -/
def c8RelB : DamageRelations := ⟨[], ["fire"], ["fire"]⟩

/-- C8 counterexample: the claim's hypotheses hold (A lists B = "water"
under `double_damage_from` and does not otherwise mention C = "fire"; B
lists C under `half_damage_from`), yet the combined multiplier for C is 0,
not 0.5, and C lands in the "0x" bucket, because the code's
`no_damage_from` loop overwrites the `half_damage_from` entry. -/
theorem C8_counterexample :
    ("water" ∈ c8RelA.double_damage_from ∧
      "fire" ∉ c8RelA.double_damage_from ∧ "fire" ∉ c8RelA.half_damage_from ∧
      "fire" ∉ c8RelA.no_damage_from ∧ "fire" ∈ c8RelB.half_damage_from) ∧
    combinedMultiplier c8RelA c8RelB "fire" = 0 ∧
    "fire" ∉ dualTypeBucket c8RelA c8RelB "0.5x" ∧
    "fire" ∈ dualTypeBucket c8RelA c8RelB "0x" := by
  have hcm : combinedMultiplier c8RelA c8RelB "fire" = 0 := by
    norm_num [combinedMultiplier, build_multiplier_map, c8RelA, c8RelB]
  have hlbl : multiplierLabel 0 = "0x" := by norm_num [multiplierLabel]
  refine ⟨by decide, hcm, ?_, ?_⟩
  · rw [dualTypeBucket, List.mem_filter]
    rintro ⟨-, hpred⟩
    rw [hcm, hlbl] at hpred
    exact absurd hpred (by decide)
  · rw [dualTypeBucket, List.mem_filter]
    refine ⟨by decide, ?_⟩
    rw [hcm, hlbl]
    decide

/-- C8 (amended): for types A, B, C in the 18-type universe such that A's
damage relations list B under `double_damage_from` and do not otherwise
mention C, and B's damage relations list C under `half_damage_from` and do
not list C under `no_damage_from`, the combined defensive multiplier for
an attacker of type C against the pair is 0.5 × 1.0 = 0.5 and C is placed
in the "0.5x" bucket. -/
theorem C8_dual_type_half (r1 r2 : DamageRelations) (b c : String)
    (hc : c ∈ ALL_TYPES)
    (hb : b ∈ r1.double_damage_from)
    (h1 : c ∉ r1.double_damage_from) (h2 : c ∉ r1.half_damage_from)
    (h3 : c ∉ r1.no_damage_from)
    (h4 : c ∈ r2.half_damage_from) (h5 : c ∉ r2.no_damage_from) :
    build_multiplier_map r1 c = 1 ∧ build_multiplier_map r2 c = 1/2 ∧
    combinedMultiplier r1 r2 c = 1/2 ∧ c ∈ dualTypeBucket r1 r2 "0.5x" := by
  have hm1 : build_multiplier_map r1 c = 1 := by
    simp [build_multiplier_map, h1, h2, h3]
  have hm2 : build_multiplier_map r2 c = 1/2 := by
    simp [build_multiplier_map, h4, h5]
  have hcm : combinedMultiplier r1 r2 c = 1/2 := by
    rw [combinedMultiplier, hm1, hm2]
    norm_num
  refine ⟨hm1, hm2, hcm, ?_⟩
  rw [dualTypeBucket, List.mem_filter]
  refine ⟨hc, ?_⟩
  rw [hcm]
  have hlbl : multiplierLabel (1/2) = "0.5x" := by norm_num [multiplierLabel]
  rw [hlbl]
  decide

/-- Witness for C8 at the spec's own example shape: A with
`double_damage_from=[B]`, B with `half_damage_from=[C]` and nothing else. -/
theorem C8_dual_type_half_witness :
    build_multiplier_map ⟨["water"], [], []⟩ "fire" = 1 ∧
    build_multiplier_map ⟨[], ["fire"], []⟩ "fire" = 1/2 ∧
    combinedMultiplier ⟨["water"], [], []⟩ ⟨[], ["fire"], []⟩ "fire" = 1/2 ∧
    "fire" ∈ dualTypeBucket ⟨["water"], [], []⟩ ⟨[], ["fire"], []⟩ "0.5x" :=
  C8_dual_type_half ⟨["water"], [], []⟩ ⟨[], ["fire"], []⟩ "water" "fire"
    (by decide) (by decide) (by decide) (by decide) (by decide) (by decide)
    (by decide)

/-- C9: `list_items` builds its cache key from the clamped limit
`min(limit, 100)` and the offset, uses the same clamped limit in the
upstream request path, and two calls with the same limit and distinct
offsets always build distinct keys. -/
theorem C9_list_pagination_keys (limit o1 o2 : ℤ) (hne : o1 ≠ o2) :
    itemsListKey limit o1 ≠ itemsListKey limit o2 ∧
    itemsListKey limit o1 =
      "items_list:" ++ toString (min limit 100) ++ ":" ++ toString o1 ∧
    itemsListPath limit o1 =
      "/item?limit=" ++ toString (min limit 100) ++ "&offset=" ++ toString o1 := by
  refine ⟨?_, rfl, rfl⟩
  intro heq
  apply hne
  apply Int_toString_injective
  apply String.ext
  have hdata := congrArg String.data heq
  simp only [itemsListKey, String.data_append] at hdata
  exact List.append_cancel_left hdata

/-- Witness for C9 at the spec's example: limit 20, offsets 0 and 20. -/
theorem C9_list_pagination_keys_witness :
    itemsListKey 20 0 ≠ itemsListKey 20 20 ∧
    itemsListKey 20 0 =
      "items_list:" ++ toString (min (20 : ℤ) 100) ++ ":" ++ toString (0 : ℤ) ∧
    itemsListPath 20 0 =
      "/item?limit=" ++ toString (min (20 : ℤ) 100) ++ "&offset=" ++ toString (0 : ℤ) :=
  C9_list_pagination_keys 20 0 20 (by decide)

/-- C10: identifiers are lower-cased consistently in cache key and request
path by the entity tools, so two identifiers that differ only by letter
case build the same key and the same path for `get_pokemon`, `get_type`
and `get_item`; consequently, after one such call succeeds (fetching a
truthy value, or running on the local backend) the other call, while the
entry is unexpired, returns the cached value without a second fetch. -/
theorem C10_case_insensitive_normalization (c : CacheLayer)
    (now now2 ttl ttl2 : ℕ) (s1 s2 : String)
    (up : String → Except String PyVal) (v : PyVal)
    (hcase : List.Forall₂ (fun a b : Char => a.toLower = b.toLower) s1.data s2.data) :
    (pokemonKey s1 = pokemonKey s2 ∧ pokemonPath s1 = pokemonPath s2) ∧
    (typeKey s1 = typeKey s2 ∧ typePath s1 = typePath s2) ∧
    (itemKey s1 = itemKey s2 ∧ itemPath s1 = itemPath s2) ∧
    (c.hitValue now (pokemonKey s1) = none →
      up (pokemonPath s1) = Except.ok v →
      (v.truthy = true ∨ c.redisUrl = none) → now2 < now + ttl →
      get_pokemon ((get_pokemon c now s1 up ttl).state) now2 s2 up ttl2 =
        ⟨Except.ok v, (get_pokemon c now s1 up ttl).state, 0⟩) := by
  have hlow := pyLower_eq_of_caseEq hcase
  have hkey : pokemonKey s1 = pokemonKey s2 := by unfold pokemonKey; rw [hlow]
  have hpath : pokemonPath s1 = pokemonPath s2 := by unfold pokemonPath; rw [hlow]
  refine ⟨⟨hkey, hpath⟩,
    ⟨by unfold typeKey; rw [hlow], by unfold typePath; rw [hlow]⟩,
    ⟨by unfold itemKey; rw [hlow], by unfold itemPath; rw [hlow]⟩, ?_⟩
  intro hmiss hok hv hexp
  unfold get_pokemon entityToolCall
  rw [← hkey, ← hpath, hok]
  rw [get_or_fetch_of_miss_ok v ttl hmiss]
  apply get_or_fetch_of_hit
  cases hu : c.redisUrl with
  | none => exact hitValue_writeBack_local hu now now2 ttl _ v
  | some u =>
    have hvt : v.truthy = true := by
      rcases hv with h | h
      · exact h
      · rw [hu] at h; cases h
    exact hitValue_writeBack_redis (by simp [hu]) _ hvt hexp

/-- Witness for C10: "PiKaChu" and "pikachu" share key and path, and the
second call is a no-fetch hit after the first call populated the (local)
cache. -/
theorem C10_case_insensitive_normalization_witness :
    (pokemonKey "PiKaChu" = pokemonKey "pikachu" ∧
      pokemonPath "PiKaChu" = pokemonPath "pikachu") ∧
    (typeKey "PiKaChu" = typeKey "pikachu" ∧
      typePath "PiKaChu" = typePath "pikachu") ∧
    (itemKey "PiKaChu" = itemKey "pikachu" ∧
      itemPath "PiKaChu" = itemPath "pikachu") ∧
    ((CacheLayer.init none).hitValue 0 (pokemonKey "PiKaChu") = none →
      (fun _ : String => (Except.ok (PyVal.vStr "J") : Except String PyVal))
          (pokemonPath "PiKaChu") = Except.ok (PyVal.vStr "J") →
      ((PyVal.vStr "J").truthy = true ∨ (CacheLayer.init none).redisUrl = none) →
      5 < 0 + 3600 →
      get_pokemon ((get_pokemon (CacheLayer.init none) 0 "PiKaChu"
          (fun _ => (Except.ok (PyVal.vStr "J") : Except String PyVal)) 3600).state)
          5 "pikachu"
          (fun _ => (Except.ok (PyVal.vStr "J") : Except String PyVal)) 3600 =
        ⟨Except.ok (PyVal.vStr "J"),
          (get_pokemon (CacheLayer.init none) 0 "PiKaChu"
            (fun _ => (Except.ok (PyVal.vStr "J") : Except String PyVal)) 3600).state,
          0⟩) :=
  C10_case_insensitive_normalization (CacheLayer.init none) 0 5 3600 3600
    "PiKaChu" "pikachu"
    (fun _ => (Except.ok (PyVal.vStr "J") : Except String PyVal)) (PyVal.vStr "J")
    (by
      show List.Forall₂ (fun a b : Char => a.toLower = b.toLower)
        ['P', 'i', 'K', 'a', 'C', 'h', 'u'] ['p', 'i', 'k', 'a', 'c', 'h', 'u']
      exact List.Forall₂.cons (by decide) (List.Forall₂.cons (by decide)
        (List.Forall₂.cons (by decide) (List.Forall₂.cons (by decide)
        (List.Forall₂.cons (by decide) (List.Forall₂.cons (by decide)
        (List.Forall₂.cons (by decide) List.Forall₂.nil)))))))

end PokeMCP
